import Mathlib

/-!
Verification of the evaluation toolkit of `financial-analyst`.

The development shallowly embeds:
* `shared/metrics.py` — `compute_extraction_accuracy`, `compute_precision`,
  `compute_recall` over a dataframe with an expected-value column and an
  extracted-value column.  A dataframe is a `List Row`; a cell is
  `Option ℚ` (`none` models a pandas missing value / `NaN` cell).  Pandas
  elementwise `==` is `false` whenever either side is missing, `dropna`
  removes rows whose selected cell is missing, and `.mean()` of an empty
  boolean selection is `NaN`, which we model as a `none` result.
* `shared/evaluate.py` — `create_evaluation_table` (an outer merge on the
  `(id, name)` key validated as one-to-one) and `calculate_overall_metrics`.
* `notebooks/create_mock_eval_dataset/create_mock_eval_dataset.py` — the
  batched extraction pipeline `extract_eval_data` / `call_agent` and the
  concurrency gate `LLM_EXTRACTION_SEMAPHORE` of capacity 10, modelled as a
  small-step transition system over task phases.
-/

namespace FinancialAnalyst

/-- One row of an evaluation dataframe, restricted to the two cells the
metric functions read.  `none` models a missing (`NaN`) cell. -/
structure Row where
  expected_value : Option ℚ
  extracted_value : Option ℚ
deriving DecidableEq

/-- Pandas elementwise equality on two cells: a missing value compares
unequal to everything, including another missing value (`NaN == NaN` is
`False`). -/
def pandasEq (a b : Option ℚ) : Bool :=
  match a, b with
  | some x, some y => x == y
  | _, _ => false

/-- The mean of a boolean column: the fraction of `true` entries, or `none`
(pandas `NaN`) when the column is empty. -/
def boolMean (p : Row → Bool) (data : List Row) : Option ℚ :=
  if data.length = 0 then none
  else some ((data.countP p : ℚ) / (data.length : ℚ))

/-- The per-row predicate of `metrics.compute_extraction_accuracy`:
`(expected == extracted) | (expected.isna() & extracted.isna())`. -/
def accuracyMatch (r : Row) : Bool :=
  pandasEq r.expected_value r.extracted_value
    || (r.expected_value.isNone && r.extracted_value.isNone)

/-- Embeds `metrics.compute_extraction_accuracy`: the mean of
`(expected == extracted) | (expected.isna() & extracted.isna())`. -/
def compute_extraction_accuracy (data : List Row) : Option ℚ :=
  boolMean accuracyMatch data

/-- Embeds `metrics.compute_precision`: drop rows whose extracted cell is
missing, then take the mean of `expected == extracted`. -/
def compute_precision (data : List Row) : Option ℚ :=
  boolMean (fun r => pandasEq r.expected_value r.extracted_value)
    (data.filter (fun r => r.extracted_value.isSome))

/-- Embeds `metrics.compute_recall`: drop rows whose expected cell is
missing, then take the mean of `expected == extracted`. -/
def compute_recall (data : List Row) : Option ℚ :=
  boolMean (fun r => pandasEq r.expected_value r.extracted_value)
    (data.filter (fun r => r.expected_value.isSome))

example : compute_precision [⟨some 1, some 1⟩, ⟨some 2, some 3⟩] = some (1 / 2) := by rfl

example : compute_precision [⟨none, none⟩] = none := by decide

example : compute_recall [⟨some 1, some 1⟩, ⟨some 2, none⟩] = some (1 / 2) := by rfl

example : compute_extraction_accuracy [⟨none, none⟩] = some 1 := by
  simp [compute_extraction_accuracy, accuracyMatch, boolMean, pandasEq]

/-- On a row whose second cell is present, pandas elementwise equality
agrees with equality of the two `Option` cells. -/
theorem pandasEq_eq_decide_of_isSome (a b : Option ℚ) (hb : b.isSome) :
    pandasEq a b = decide (a = b) := by
  cases a <;> cases b <;>
    simp_all [pandasEq, Bool.beq_eq_decide_eq, decide_eq_decide]

/-- C1: for every evaluation table, `compute_precision` returns the fraction
of rows with a non-missing extracted value whose extracted value equals the
expected value; rows with a missing extracted value appear in neither the
numerator nor the denominator.  (The hypothesis keeps the denominator
non-empty; the empty case returns `none`, i.e. `NaN`, see C10.) -/
theorem compute_precision_is_match_fraction (data : List Row)
    (h : 0 < ((data.filter fun r => r.extracted_value.isSome).length)) :
    compute_precision data =
      some ((((data.filter fun r => r.extracted_value.isSome).countP
            fun r => decide (r.expected_value = r.extracted_value)) : ℚ) /
          (((data.filter fun r => r.extracted_value.isSome).length) : ℚ)) := by
  have hc : (data.filter fun r => r.extracted_value.isSome).countP
      (fun r => pandasEq r.expected_value r.extracted_value) =
      (data.filter fun r => r.extracted_value.isSome).countP
      (fun r => decide (r.expected_value = r.extracted_value)) := by
    refine List.countP_congr fun r hr => ?_
    have hs : r.extracted_value.isSome := (List.mem_filter.mp hr).2
    rw [pandasEq_eq_decide_of_isSome _ _ hs]
  unfold compute_precision boolMean
  rw [if_neg (by omega), hc]

/-- Witness for C1 on a concrete three-row table: one correct row, one row
with a missing expected value, one row with a missing extracted value. -/
theorem compute_precision_is_match_fraction_witness :
    0 < ((([⟨some 1, some 1⟩, ⟨none, some 2⟩, ⟨some 3, none⟩] :
        List Row).filter fun r => r.extracted_value.isSome).length) ∧
    compute_precision [⟨some 1, some 1⟩, ⟨none, some 2⟩, ⟨some 3, none⟩] =
      some ((((([⟨some 1, some 1⟩, ⟨none, some 2⟩, ⟨some 3, none⟩] :
            List Row).filter fun r => r.extracted_value.isSome).countP
            fun r => decide (r.expected_value = r.extracted_value)) : ℚ) /
          (((([⟨some 1, some 1⟩, ⟨none, some 2⟩, ⟨some 3, none⟩] :
            List Row).filter fun r => r.extracted_value.isSome).length) : ℚ)) :=
  ⟨by decide,
    compute_precision_is_match_fraction
      [⟨some 1, some 1⟩, ⟨none, some 2⟩, ⟨some 3, none⟩] (by decide)⟩

/-- C2: for every evaluation table, `compute_recall` returns the fraction
of rows with a non-missing expected value whose extracted value equals the
expected value; rows with a missing expected value appear in neither the
numerator nor the denominator.  (The hypothesis keeps the denominator
non-empty; the empty case returns `none`, i.e. `NaN`, see C10.) -/
theorem compute_recall_is_match_fraction (data : List Row)
    (h : 0 < ((data.filter fun r => r.expected_value.isSome).length)) :
    compute_recall data =
      some ((((data.filter fun r => r.expected_value.isSome).countP
            fun r => decide (r.extracted_value = r.expected_value)) : ℚ) /
          (((data.filter fun r => r.expected_value.isSome).length) : ℚ)) := by
  have hc : (data.filter fun r => r.expected_value.isSome).countP
      (fun r => pandasEq r.expected_value r.extracted_value) =
      (data.filter fun r => r.expected_value.isSome).countP
      (fun r => decide (r.extracted_value = r.expected_value)) := by
    refine List.countP_congr fun r hr => ?_
    have hs : r.expected_value.isSome := (List.mem_filter.mp hr).2
    cases hx : r.expected_value with
    | none => simp [hx] at hs
    | some x =>
      cases hy : r.extracted_value <;>
        simp [pandasEq, Bool.beq_eq_decide_eq, decide_eq_decide, eq_comm]
  unfold compute_recall boolMean
  rw [if_neg (by omega), hc]

/-- Witness for C2 on a concrete three-row table. -/
theorem compute_recall_is_match_fraction_witness :
    0 < ((([⟨some 1, some 1⟩, ⟨none, some 2⟩, ⟨some 3, none⟩] :
        List Row).filter fun r => r.expected_value.isSome).length) ∧
    compute_recall [⟨some 1, some 1⟩, ⟨none, some 2⟩, ⟨some 3, none⟩] =
      some ((((([⟨some 1, some 1⟩, ⟨none, some 2⟩, ⟨some 3, none⟩] :
            List Row).filter fun r => r.expected_value.isSome).countP
            fun r => decide (r.extracted_value = r.expected_value)) : ℚ) /
          (((([⟨some 1, some 1⟩, ⟨none, some 2⟩, ⟨some 3, none⟩] :
            List Row).filter fun r => r.expected_value.isSome).length) : ℚ)) :=
  ⟨by decide,
    compute_recall_is_match_fraction
      [⟨some 1, some 1⟩, ⟨none, some 2⟩, ⟨some 3, none⟩] (by decide)⟩

/-- C10: when every extracted value is missing, `compute_precision` is the
mean of an empty selection, i.e. `NaN` (modelled as `none`), not a number;
likewise `compute_recall` when every expected value is missing. -/
theorem all_missing_gives_nan (data : List Row) :
    ((∀ r ∈ data, r.extracted_value = none) → compute_precision data = none)
    ∧ ((∀ r ∈ data, r.expected_value = none) → compute_recall data = none) := by
  constructor
  · intro hall
    have hnil : data.filter (fun r => r.extracted_value.isSome) = [] :=
      List.filter_eq_nil_iff.mpr (fun r hr => by simp [hall r hr])
    simp [compute_precision, hnil, boolMean]
  · intro hall
    have hnil : data.filter (fun r => r.expected_value.isSome) = [] :=
      List.filter_eq_nil_iff.mpr (fun r hr => by simp [hall r hr])
    simp [compute_recall, hnil, boolMean]

/-- Witness for C10 at two concrete one-row tables. -/
theorem all_missing_gives_nan_witness :
    compute_precision [⟨some 1, none⟩] = none
    ∧ compute_recall [⟨none, some 1⟩] = none :=
  ⟨(all_missing_gives_nan [⟨some 1, none⟩]).1 (by decide),
    (all_missing_gives_nan [⟨none, some 1⟩]).2 (by decide)⟩

/-- C8 fails as stated: on the one-row table whose single row has both
cells missing, the expected-value column and the extracted-value column are
identical, yet `compute_precision` and `compute_recall` return `none`
(pandas `NaN`), not `1.0`: `dropna` removes the row and the mean of the
empty selection is `NaN`. -/
theorem identical_columns_claim_counterexample :
    ([⟨none, none⟩] : List Row).map Row.expected_value =
      ([⟨none, none⟩] : List Row).map Row.extracted_value
    ∧ compute_precision [⟨none, none⟩] ≠ some 1
    ∧ compute_recall [⟨none, none⟩] ≠ some 1 := by
  refine ⟨rfl, ?_, ?_⟩ <;> decide

/-- C8 amended: if the expected and extracted columns are identical and at
least one row carries a non-missing value, `compute_precision` and
`compute_recall` both return `1.0`. -/
theorem identical_columns_give_one (data : List Row)
    (hid : ∀ r ∈ data, r.expected_value = r.extracted_value)
    (hne : ∃ r ∈ data, r.extracted_value.isSome) :
    compute_precision data = some 1 ∧ compute_recall data = some 1 := by
  have hmatch : ∀ r ∈ data, r.extracted_value.isSome →
      pandasEq r.expected_value r.extracted_value = true := by
    intro r hr hs
    rw [pandasEq_eq_decide_of_isSome _ _ hs, decide_eq_true_eq]
    exact hid r hr
  have hcols : ∀ r ∈ data, r.expected_value.isSome = r.extracted_value.isSome := by
    intro r hr
    rw [hid r hr]
  constructor
  · have hlen : 0 < (data.filter fun r => r.extracted_value.isSome).length := by
      obtain ⟨r, hr, hs⟩ := hne
      exact List.length_pos.mpr (List.ne_nil_of_mem (List.mem_filter.mpr ⟨hr, hs⟩))
    have hall : (data.filter fun r => r.extracted_value.isSome).countP
        (fun r => pandasEq r.expected_value r.extracted_value) =
        (data.filter fun r => r.extracted_value.isSome).length :=
      List.countP_eq_length.mpr fun r hr =>
        hmatch r (List.mem_filter.mp hr).1 (List.mem_filter.mp hr).2
    unfold compute_precision boolMean
    rw [if_neg (by omega), hall, div_self (by exact_mod_cast Nat.pos_iff_ne_zero.mp hlen)]
  · have hfeq : (data.filter fun r => r.expected_value.isSome) =
        (data.filter fun r => r.extracted_value.isSome) :=
      List.filter_congr fun r hr => hcols r hr
    have hlen : 0 < (data.filter fun r => r.extracted_value.isSome).length := by
      obtain ⟨r, hr, hs⟩ := hne
      exact List.length_pos.mpr (List.ne_nil_of_mem (List.mem_filter.mpr ⟨hr, hs⟩))
    have hall : (data.filter fun r => r.extracted_value.isSome).countP
        (fun r => pandasEq r.expected_value r.extracted_value) =
        (data.filter fun r => r.extracted_value.isSome).length :=
      List.countP_eq_length.mpr fun r hr =>
        hmatch r (List.mem_filter.mp hr).1 (List.mem_filter.mp hr).2
    unfold compute_recall boolMean
    rw [hfeq, if_neg (by omega), hall,
      div_self (by exact_mod_cast Nat.pos_iff_ne_zero.mp hlen)]

/-- Witness for the amended C8 at a concrete two-row identical table. -/
theorem identical_columns_give_one_witness :
    compute_precision [⟨some 1, some 1⟩, ⟨some 2, some 2⟩] = some 1
    ∧ compute_recall [⟨some 1, some 1⟩, ⟨some 2, some 2⟩] = some 1 :=
  identical_columns_give_one [⟨some 1, some 1⟩, ⟨some 2, some 2⟩]
    (by decide) (by decide)

/-- C4 fails as stated for precision/recall: on the table with one
both-missing row and one mismatched row, `compute_precision` and
`compute_recall` return `0`, so the both-missing row was not counted as a
match (that reading would give `1/2`); on the table with only a
both-missing row they return `none` (`NaN`), not `1.0`.  The both-missing
row is dropped by `dropna`, not scored. -/
theorem both_missing_claim_counterexample :
    compute_precision [⟨none, none⟩, ⟨some 1, some 2⟩] = some 0
    ∧ compute_recall [⟨none, none⟩, ⟨some 1, some 2⟩] = some 0
    ∧ compute_precision [⟨none, none⟩] = none
    ∧ compute_recall [⟨none, none⟩] = none := by
  refine ⟨?_, ?_, by decide, by decide⟩ <;>
    simp [compute_precision, compute_recall, boolMean, pandasEq]

/-- C4 amended: a row with both cells missing counts as a match in
`compute_extraction_accuracy`; in `compute_precision` and `compute_recall`
it is dropped by the `dropna` filter and counts neither as a match nor as
a mismatch — the scores are unchanged by its presence. -/
theorem both_missing_row_handling (r : Row) (data : List Row)
    (h1 : r.expected_value = none) (h2 : r.extracted_value = none) :
    accuracyMatch r = true
    ∧ compute_precision (r :: data) = compute_precision data
    ∧ compute_recall (r :: data) = compute_recall data := by
  refine ⟨by simp [accuracyMatch, h1, h2], ?_, ?_⟩
  · unfold compute_precision
    rw [List.filter_cons_of_neg (by simp [h2])]
  · unfold compute_recall
    rw [List.filter_cons_of_neg (by simp [h1])]

/-- Witness for the amended C4: prepending a both-missing row to a concrete
one-row table changes neither score, and the row satisfies the accuracy
match predicate. -/
theorem both_missing_row_handling_witness :
    accuracyMatch ⟨none, none⟩ = true
    ∧ compute_precision [⟨none, none⟩, ⟨some 1, some 1⟩] =
        compute_precision [⟨some 1, some 1⟩]
    ∧ compute_recall [⟨none, none⟩, ⟨some 1, some 1⟩] =
        compute_recall [⟨some 1, some 1⟩] :=
  both_missing_row_handling ⟨none, none⟩ [⟨some 1, some 1⟩] rfl rfl

/-! ### `shared/evaluate.py` — the validated outer merge

`create_evaluation_table` calls `pd.merge(ground_truth_df,
agent_responses_df, on=["id", "name"], suffixes=("_ground_truth",
"_agent_response"), how="outer", validate="1:1")`.  With `validate="1:1"`
pandas raises `MergeError` whenever the `(id, name)` key is duplicated on
either side; otherwise the outer merge pairs rows by key and fills the
side with no partner with `NaN`.  We model a source table as a list of
keyed rows carrying the one payload column the metrics read
(`latest_yoy_pct`), and the merge result as the left rows in order
followed by the unmatched right rows (pandas sorts the outer result by
key; the claims here are insensitive to row order). -/

/-- A row of the ground-truth CSV or of the agent-response table: the
`(id, name)` merge key plus the `latest_yoy_pct` payload column. -/
structure SourceRow where
  id : Int
  name : String
  latest_yoy_pct : ℚ
deriving DecidableEq

/-- A row of the merged evaluation table: the key plus the two suffixed
payload columns, missing (`none`) on the side with no partner. -/
structure EvalRow where
  id : Int
  name : String
  latest_yoy_pct_ground_truth : Option ℚ
  latest_yoy_pct_agent_response : Option ℚ
deriving DecidableEq

/-- The `(id, name)` merge key of a source row. -/
def rowKey (r : SourceRow) : Int × String := (r.id, r.name)

/-- The `(id, name)` key of a merged row. -/
def evalKey (r : EvalRow) : Int × String := (r.id, r.name)

/-- The outer merge on `(id, name)`: every ground-truth row paired with
the matching agent-response row when one exists, followed by the
agent-response rows with no ground-truth partner. -/
def outerMerge (gt ar : List SourceRow) : List EvalRow :=
  gt.map (fun g =>
    { id := g.id, name := g.name,
      latest_yoy_pct_ground_truth := some g.latest_yoy_pct,
      latest_yoy_pct_agent_response :=
        (ar.find? fun a => rowKey a = rowKey g).map
          (fun a => a.latest_yoy_pct) })
  ++ (ar.filter fun a => !(gt.any fun g => rowKey g = rowKey a)).map
    (fun a =>
      { id := a.id, name := a.name,
        latest_yoy_pct_ground_truth := none,
        latest_yoy_pct_agent_response := some a.latest_yoy_pct })

/-- Embeds `evaluate.create_evaluation_table`: the `validate="1:1"` outer
merge, a `MergeError` (modelled as `Except.error`) when the `(id, name)`
key is duplicated on either side. -/
def create_evaluation_table (gt ar : List SourceRow) :
    Except String (List EvalRow) :=
  if (gt.map rowKey).Nodup ∧ (ar.map rowKey).Nodup then
    .ok (outerMerge gt ar)
  else
    .error "MergeError: Merge keys are not unique, not a one-to-one merge"

/-- A merged row read as a metrics `Row`: `calculate_overall_metrics`
selects the two suffixed `latest_yoy_pct` columns. -/
def evalRowToRow (r : EvalRow) : Row :=
  ⟨r.latest_yoy_pct_ground_truth, r.latest_yoy_pct_agent_response⟩

/-- Embeds `evaluate.calculate_overall_metrics`: precision and recall on
the suffixed `latest_yoy_pct` columns of the evaluation table. -/
def calculate_overall_metrics (evaluation_df : List EvalRow) :
    Option ℚ × Option ℚ :=
  (compute_precision (evaluation_df.map evalRowToRow),
    compute_recall (evaluation_df.map evalRowToRow))

example :
    create_evaluation_table
      [⟨1, "revenue", 5⟩] [⟨1, "revenue", 5⟩, ⟨1, "debt", 3⟩] =
    .ok [⟨1, "revenue", some 5, some 5⟩, ⟨1, "debt", none, some 3⟩] := by
  rfl

example :
    create_evaluation_table [⟨1, "revenue", 5⟩, ⟨1, "revenue", 6⟩] [] =
    .error "MergeError: Merge keys are not unique, not a one-to-one merge" := by
  rfl

/-- C6: `create_evaluation_table` merges the ground-truth and
agent-response tables one-to-one on the `(id, name)` key pair: whenever
that key is duplicated on either side the merge raises (`Except.error`)
rather than returning a table, and when both sides' keys are unique it
returns the outer merge, in which every `(id, name)` key appears at most
once. -/
theorem create_evaluation_table_one_to_one (gt ar : List SourceRow) :
    ((¬ (gt.map rowKey).Nodup ∨ ¬ (ar.map rowKey).Nodup) →
      ∃ e, create_evaluation_table gt ar = .error e)
    ∧ ((gt.map rowKey).Nodup → (ar.map rowKey).Nodup →
      ∃ t, create_evaluation_table gt ar = .ok t ∧ (t.map evalKey).Nodup) := by
  constructor
  · intro hdup
    refine ⟨"MergeError: Merge keys are not unique, not a one-to-one merge", ?_⟩
    unfold create_evaluation_table
    rw [if_neg (by tauto)]
  · intro hgt har
    refine ⟨outerMerge gt ar, ?_, ?_⟩
    · unfold create_evaluation_table
      rw [if_pos ⟨hgt, har⟩]
    · have hmap : (outerMerge gt ar).map evalKey =
          gt.map rowKey ++
            (ar.filter fun a => !(gt.any fun g => rowKey g = rowKey a)).map
              rowKey := by
        unfold outerMerge
        rw [List.map_append, List.map_map, List.map_map]
        rfl
      rw [hmap, List.nodup_append]
      refine ⟨hgt, ?_, ?_⟩
      · exact ((List.filter_sublist ar).map rowKey).nodup har
      · intro k hk hk2
        obtain ⟨a, ha, hka⟩ := List.mem_map.mp hk2
        obtain ⟨g, hg, hkg⟩ := List.mem_map.mp hk
        have hfa := (List.mem_filter.mp ha).2
        rw [Bool.not_eq_eq_eq_not, Bool.not_true, List.any_eq_false] at hfa
        exact absurd (hkg.trans hka.symm) (by simpa using hfa g hg)

/-- Witness for C6: a duplicated ground-truth key raises; unique keys on
both sides produce a merged table with pairwise-distinct keys. -/
theorem create_evaluation_table_one_to_one_witness :
    (∃ e, create_evaluation_table
      [⟨1, "revenue", 0⟩, ⟨1, "revenue", 1⟩] [] = .error e)
    ∧ (∃ t, create_evaluation_table
      [⟨1, "revenue", 5⟩] [⟨2, "debt", 3⟩] = .ok t ∧ (t.map evalKey).Nodup) :=
  ⟨(create_evaluation_table_one_to_one
      [⟨1, "revenue", 0⟩, ⟨1, "revenue", 1⟩] []).1 (Or.inl (by decide)),
    (create_evaluation_table_one_to_one
      [⟨1, "revenue", 5⟩] [⟨2, "debt", 3⟩]).2 (by decide) (by decide)⟩

/-! ### `create_mock_eval_dataset.py` — the batched extraction pipeline

`extract_eval_data` batches the page identifiers with
`itertools.batched(available_pages, PAGES_PER_CALL)` (`PAGES_PER_CALL =
2`), builds one request per batch, awaits them all with `asyncio.gather`,
and concatenates the `material_changes` of the per-batch reports in batch
order.  `call_agent` wraps one request: it raises `ValueError` when the
agent's response value is not a `MaterialChangesReport`.  The agent is
modelled as a function from the batch's pages to the raw response value
(`Option MaterialChangesReport`, `none` being a wrong-shape response);
raising is `Except.error`, and `gather` with an error is the error of the
earliest failing batch. -/

/-- A file-and-page reference of a reason
(`create_mock_eval_dataset.Reference`). -/
structure Reference where
  file_name : String
  page_number : Int
deriving DecidableEq

/-- A reason for a material change
(`create_mock_eval_dataset.ReasonForChange`); the field name `suporting_text`
keeps the source's spelling. -/
structure ReasonForChange where
  reason : String
  suporting_text : String
  reference : Reference
deriving DecidableEq

/-- A material change (`create_mock_eval_dataset.MaterialChange`). -/
structure MaterialChange where
  material_change : String
  reasons_for_change : List ReasonForChange
deriving DecidableEq

/-- A report (`create_mock_eval_dataset.MaterialChangesReport`). -/
structure MaterialChangesReport where
  material_changes : List MaterialChange
deriving DecidableEq

/-- `PAGES_PER_CALL = 2`. -/
def PAGES_PER_CALL : ℕ := 2

/-- `itertools.batched(pages, 2)`: consecutive pairs, a trailing singleton
when the number of pages is odd, no batch for an empty input. -/
def batched2 : List String → List (List String)
  | [] => []
  | [a] => [[a]]
  | a :: b :: rest => [a, b] :: batched2 rest

/-- The number of extraction requests `extract_eval_data` issues: one per
batch. -/
def numRequests (pages : List String) : ℕ :=
  (batched2 pages).length

/-- Embeds `call_agent` after the semaphore acquire: the agent's raw
response value is checked with `isinstance`; a wrong-shape value raises
`ValueError("Agent did not return a MaterialChangesReport")`. -/
def call_agent (output : Option MaterialChangesReport) :
    Except String MaterialChangesReport :=
  match output with
  | some report => .ok report
  | none => .error "Agent did not return a MaterialChangesReport"

/-- `asyncio.gather` over fallible requests: all results collected in task
order, the earliest failure propagating as the overall failure. -/
def gatherExcept (g : List String → Except String MaterialChangesReport) :
    List (List String) → Except String (List MaterialChangesReport)
  | [] => .ok []
  | b :: bs =>
    match g b with
    | .error e => .error e
    | .ok report =>
      match gatherExcept g bs with
      | .error e => .error e
      | .ok reports => .ok (report :: reports)

/-- Embeds `extract_eval_data`: batch the pages two per call, issue one
`call_agent` request per batch, await them all, and flatten the
`material_changes` of the per-batch reports in batch order into one
combined report. -/
def extract_eval_data (agentValue : List String → Option MaterialChangesReport)
    (pages : List String) : Except String MaterialChangesReport :=
  match gatherExcept (fun b => call_agent (agentValue b)) (batched2 pages) with
  | .error e => .error e
  | .ok reports =>
    .ok ⟨(reports.map MaterialChangesReport.material_changes).flatten⟩

example : batched2 ["p1", "p2", "p3"] = [["p1", "p2"], ["p3"]] := by decide

example :
    extract_eval_data (fun b => some ⟨b.map fun p => ⟨p, []⟩⟩)
      ["p1", "p2", "p3"] =
    .ok ⟨[⟨"p1", []⟩, ⟨"p2", []⟩, ⟨"p3", []⟩]⟩ := by rfl

/-- Each batch produced by `batched2` has at most `PAGES_PER_CALL` pages. -/
theorem batched2_batch_size (pages : List String) :
    ∀ b ∈ batched2 pages, b.length ≤ PAGES_PER_CALL := by
  induction pages using batched2.induct with
  | case1 => intro b hb; simp [batched2] at hb
  | case2 a => intro b hb; simp [batched2] at hb; simp [hb, PAGES_PER_CALL]
  | case3 a c rest ih =>
    intro b hb
    rcases List.mem_cons.mp hb with h | h
    · simp [h, PAGES_PER_CALL]
    · exact ih b h

/-- `batched2` partitions the input: flattening the batches restores the
page list in order. -/
theorem batched2_flatten (pages : List String) :
    (batched2 pages).flatten = pages := by
  induction pages using batched2.induct with
  | case1 => rfl
  | case2 a => rfl
  | case3 a c rest ih => simp [batched2, ih]

/-- `batched2` produces `ceil(N/2)` batches. -/
theorem batched2_length (pages : List String) :
    (batched2 pages).length = (pages.length + 1) / 2 := by
  induction pages using batched2.induct with
  | case1 => rfl
  | case2 a => simp [batched2]
  | case3 a c rest ih => simp [batched2, ih]; omega

/-- When every request succeeds, `gatherExcept` returns the per-batch
reports in batch order. -/
theorem gatherExcept_ok (g : List String → Except String MaterialChangesReport)
    (f : List String → MaterialChangesReport)
    (batches : List (List String)) (hg : ∀ b, g b = .ok (f b)) :
    gatherExcept g batches = .ok (batches.map f) := by
  induction batches with
  | nil => rfl
  | cons b bs ih => simp [gatherExcept, hg b, ih]

/-- C3: with a batch size of 2 pages per call, `extract_eval_data` on `N`
pages issues exactly `ceil(N/2)` requests; the batches partition the input
preserving page order, and when every request succeeds the combined
report's `material_changes` is the concatenation of the per-batch outputs
in batch submission order. -/
theorem extract_eval_data_batches_and_concatenates
    (f : List String → MaterialChangesReport) (pages : List String) :
    numRequests pages = (pages.length + 1) / 2
    ∧ (batched2 pages).flatten = pages
    ∧ extract_eval_data (fun b => some (f b)) pages =
        .ok ⟨((batched2 pages).map
          fun b => (f b).material_changes).flatten⟩ := by
  refine ⟨batched2_length pages, batched2_flatten pages, ?_⟩
  unfold extract_eval_data
  have hok : gatherExcept (fun b => call_agent ((fun b => some (f b)) b))
      (batched2 pages) = .ok ((batched2 pages).map f) :=
    gatherExcept_ok _ f (batched2 pages) (fun b => rfl)
  rw [hok]
  simp only [List.map_map]
  rfl

/-- C7: a request whose agent response value has the wrong shape makes
`call_agent` raise, and one such failure makes the whole
`extract_eval_data` run fail with an error: no partial combined report is
returned. -/
theorem extract_eval_data_fails_on_bad_response
    (agentValue : List String → Option MaterialChangesReport)
    (pages : List String)
    (h : ∃ b ∈ batched2 pages, agentValue b = none) :
    (∀ b, agentValue b = none →
      call_agent (agentValue b) =
        .error "Agent did not return a MaterialChangesReport")
    ∧ ∃ e, extract_eval_data agentValue pages = .error e := by
  refine ⟨fun b hb => by rw [hb]; rfl, ?_⟩
  obtain ⟨b0, hb0, hnone⟩ := h
  have hgather : ∀ batches : List (List String), b0 ∈ batches →
      ∃ e, gatherExcept (fun b => call_agent (agentValue b)) batches =
        .error e := by
    intro batches hmem
    induction batches with
    | nil => simp at hmem
    | cons b bs ih =>
      rcases List.mem_cons.mp hmem with rfl | hmem2
      · refine ⟨"Agent did not return a MaterialChangesReport", ?_⟩
        simp [gatherExcept, call_agent, hnone]
      · cases hv : call_agent (agentValue b) with
        | error e => exact ⟨e, by simp [gatherExcept, hv]⟩
        | ok report =>
          obtain ⟨e, he⟩ := ih hmem2
          exact ⟨e, by simp [gatherExcept, hv, he]⟩
  obtain ⟨e, he⟩ := hgather (batched2 pages) hb0
  exact ⟨e, by simp [extract_eval_data, he]⟩

/-- Witness for C7: a two-batch run in which the second batch's response
has the wrong shape fails as a whole. -/
theorem extract_eval_data_fails_on_bad_response_witness :
    (∀ b, (fun batch => if batch = ["p1", "p2"]
        then some (⟨[]⟩ : MaterialChangesReport) else none) b = none →
      call_agent ((fun batch => if batch = ["p1", "p2"]
        then some (⟨[]⟩ : MaterialChangesReport) else none) b) =
        .error "Agent did not return a MaterialChangesReport")
    ∧ ∃ e, extract_eval_data
        (fun batch => if batch = ["p1", "p2"]
          then some (⟨[]⟩ : MaterialChangesReport) else none)
        ["p1", "p2", "p3"] = .error e :=
  extract_eval_data_fails_on_bad_response
    (fun batch => if batch = ["p1", "p2"]
      then some (⟨[]⟩ : MaterialChangesReport) else none)
    ["p1", "p2", "p3"]
    ⟨["p3"], by decide, by decide⟩

/-! ### The concurrency gate

`LLM_EXTRACTION_SEMAPHORE = asyncio.Semaphore(10)` bounds the in-flight
requests of `extract_eval_data`.  Every `call_agent` coroutine runs
`await LLM_EXTRACTION_SEMAPHORE.acquire()` before its request and
`LLM_EXTRACTION_SEMAPHORE.release()` in a `finally:` block, so the permit
is returned whether the request finishes normally or raises.  Scheduling
is cooperative and single-process; we model a run of `extract_eval_data`
as a small-step transition system: one task per batch, each task either
pending (not yet holding a permit), running (holding a permit, request in
flight), or finished (permit released, with either a normal or a raising
outcome).  The scheduler may interleave the tasks arbitrarily. -/

/-- The phase of one `call_agent` task. -/
inductive TaskPhase
  | pending
  | running
  | finishedOk
  | finishedErr
deriving DecidableEq

/-- The shared state of a run: the semaphore's free-permit count and the
phases of the per-batch tasks (a multiset: tasks are interchangeable to
the gate). -/
structure GateState where
  sem : ℕ
  tasks : Multiset TaskPhase
deriving DecidableEq

/-- The capacity of `LLM_EXTRACTION_SEMAPHORE`. -/
def SEMAPHORE_CAPACITY : ℕ := 10

/-- One scheduler step.  `acquire` needs a free permit and consumes it;
both finish steps release the permit — `finishErr` models the request
raising, the `finally:` block still releasing. -/
inductive GateStep : GateState → GateState → Prop
  | acquire (sem : ℕ) (rest : Multiset TaskPhase) :
      GateStep ⟨sem + 1, TaskPhase.pending ::ₘ rest⟩
        ⟨sem, TaskPhase.running ::ₘ rest⟩
  | finishOk (sem : ℕ) (rest : Multiset TaskPhase) :
      GateStep ⟨sem, TaskPhase.running ::ₘ rest⟩
        ⟨sem + 1, TaskPhase.finishedOk ::ₘ rest⟩
  | finishErr (sem : ℕ) (rest : Multiset TaskPhase) :
      GateStep ⟨sem, TaskPhase.running ::ₘ rest⟩
        ⟨sem + 1, TaskPhase.finishedErr ::ₘ rest⟩

/-- The state at the start of a run over `n` tasks: all permits free,
every task pending. -/
def initGateState (n : ℕ) : GateState :=
  ⟨SEMAPHORE_CAPACITY, Multiset.replicate n TaskPhase.pending⟩

/-- The states a run of `extract_eval_data` over the given pages can reach:
one task per batch of two pages. -/
def ReachableDuring (pages : List String) (s : GateState) : Prop :=
  Relation.ReflTransGen GateStep (initGateState (numRequests pages)) s

/-- The number of in-flight extraction requests: tasks holding a permit. -/
def inflight (s : GateState) : ℕ :=
  s.tasks.count TaskPhase.running

/-- The conservation invariant of the gate: free permits plus in-flight
requests always total the semaphore's capacity. -/
theorem gate_conservation (pages : List String) (s : GateState)
    (h : ReachableDuring pages s) :
    s.sem + inflight s = SEMAPHORE_CAPACITY := by
  induction h with
  | refl =>
    simp [initGateState, inflight, Multiset.count_replicate]
  | tail hab hstep ih =>
    cases hstep with
    | acquire sem rest =>
      have h1 : (TaskPhase.pending ::ₘ rest).count TaskPhase.running =
          rest.count TaskPhase.running :=
        Multiset.count_cons_of_ne (by decide) rest
      have h2 : (TaskPhase.running ::ₘ rest).count TaskPhase.running =
          rest.count TaskPhase.running + 1 :=
        Multiset.count_cons_self _ _
      simp only [inflight] at ih ⊢
      omega
    | finishOk sem rest =>
      have h1 : (TaskPhase.finishedOk ::ₘ rest).count TaskPhase.running =
          rest.count TaskPhase.running :=
        Multiset.count_cons_of_ne (by decide) rest
      have h2 : (TaskPhase.running ::ₘ rest).count TaskPhase.running =
          rest.count TaskPhase.running + 1 :=
        Multiset.count_cons_self _ _
      simp only [inflight] at ih ⊢
      omega
    | finishErr sem rest =>
      have h1 : (TaskPhase.finishedErr ::ₘ rest).count TaskPhase.running =
          rest.count TaskPhase.running :=
        Multiset.count_cons_of_ne (by decide) rest
      have h2 : (TaskPhase.running ::ₘ rest).count TaskPhase.running =
          rest.count TaskPhase.running + 1 :=
        Multiset.count_cons_self _ _
      simp only [inflight] at ih ⊢
      omega

/-- C5: at every point a run of `extract_eval_data` can reach, the number
of in-flight extraction requests never exceeds 10, the capacity of the
acquire/release gate `LLM_EXTRACTION_SEMAPHORE` around each request. -/
theorem inflight_never_exceeds_ten (pages : List String) (s : GateState)
    (h : ReachableDuring pages s) : inflight s ≤ 10 := by
  have hc := gate_conservation pages s h
  have : SEMAPHORE_CAPACITY = 10 := rfl
  omega

/-- Witness for C5: a state of a three-page (two-batch) run with one
request in flight, reached by one acquire step. -/
theorem inflight_never_exceeds_ten_witness :
    inflight ⟨9, TaskPhase.running ::ₘ {TaskPhase.pending}⟩ ≤ 10 :=
  inflight_never_exceeds_ten ["p1", "p2", "p3"]
    ⟨9, TaskPhase.running ::ₘ {TaskPhase.pending}⟩
    (Relation.ReflTransGen.single
      (GateStep.acquire 9 {TaskPhase.pending}))

/-- C9: every task releases its permit exactly once — on the transition to
its finished phase, raising or not (the `finally:` release) — so in every
reachable state in which all tasks have finished, the gate holds its full
capacity of 10 free permits again: no failure path leaks a permit. -/
theorem gate_restored_after_run (pages : List String) (s : GateState)
    (h : ReachableDuring pages s)
    (hdone : ∀ p ∈ s.tasks,
      p = TaskPhase.finishedOk ∨ p = TaskPhase.finishedErr) :
    s.sem = SEMAPHORE_CAPACITY := by
  have hc := gate_conservation pages s h
  have hrun : inflight s = 0 := by
    refine Multiset.count_eq_zero.mpr fun hmem => ?_
    rcases hdone _ hmem with h1 | h1 <;> exact absurd h1 (by simp)
  omega

/-- Witness for C9: a one-page run whose single request raises; after
acquire and the raising finish, the semaphore is back at 10. -/
theorem gate_restored_after_run_witness :
    (⟨10, {TaskPhase.finishedErr}⟩ : GateState).sem = SEMAPHORE_CAPACITY :=
  gate_restored_after_run ["p1"] ⟨10, {TaskPhase.finishedErr}⟩
    (Relation.ReflTransGen.head (GateStep.acquire 9 0)
      (Relation.ReflTransGen.single (GateStep.finishErr 9 0)))
    (by decide)

end FinancialAnalyst
